import Mathlib

/-
Shallow embedding of the simulated-robot physics and sensor subsystem
(`sbot/sim_robot.py`, with the arena objects of
`sb/robot/arenas/tin_can_rally_2018.py`), and proofs about it.

Modelling conventions:
* Python floats are embedded as rationals (`ℚ`); the numeric literals of the
  source (`0.6`, `50.2`, `5.2`, `0.00000001`, ...) are exact decimal fractions.
* Angles are measured in units of π ("π-units"): the stored rational `q`
  stands for the angle `q·π` radians.  All angle constants of the source are
  rational in this unit (`math.pi` ↦ `1`, `2*math.pi` ↦ `2`, `pi/4` ↦ `1/4`,
  `pi/6` ↦ `1/6`, `math.pi/2` ↦ `1/2`, `radians(10)` ↦ `1/18`), so every
  comparison of the source is embedded exactly.
* `math.atan2(y, x)` returns an angle whose π-units value is irrational for
  generic arguments, so the bearing function is a parameter
  `atan2u : ℚ → ℚ → ℚ` of the model (`atan2u y x` stands for
  `atan2(y, x) / π`).  Theorems quantified over `atan2u` therefore hold for
  the true bearing function.  Closed evaluations instantiate it with
  `qatan2`, which agrees exactly with `atan2(y, x) / π` on the axis-aligned
  bearings they use (`atan2(0, x) = 0` for `0 ≤ x`, as in Python, where
  `atan2(0, 0) = 0`).
* `hypot(a, b) ≤ r` (with `0 ≤ r`) is embedded as `a^2 + b^2 ≤ r^2`, and the
  camera sort key `distance_meters = hypot(rel_x, rel_y)` is embedded as
  the squared distance: `hypot` is strictly monotone in the squared norm, so
  every comparison and the resulting order are preserved exactly.
* The physics engine (`pypybox2d`) is an external collaborator: bodies are
  embedded by the values the source reads from them (position, the cosine
  and sine of the body angle, point velocities) and the `ray_cast` of the world
  as an abstract function from the cast angle to the list of intersection
  records (the target point passed by the source is determined by the centre
  point and the cast angle, so nothing is lost by indexing on the angle).
* `GameObject` and `game_specific` (`MARKER_SIZES`, `WALL`, `TOKEN`) are not
  under `src/`; their capability set (location, velocity, optional
  `marker_id`, `grabbable`/`grabbed` flags, physics body or not) is modelled
  from the spec.
-/

namespace SimBot

/-! ## Constants (sim_robot.py lines 12-27) -/

def MAX_MOTOR_SPEED : ℚ := 1

def GRAB_RADIUS : ℚ := 0.6

/-- HALF_GRAB_SECTOR_WIDTH = pi / 4, in π-units. -/
def HALF_GRAB_SECTOR_WIDTH : ℚ := 1/4

/-- HALF_FOV_WIDTH = pi / 6, in π-units. -/
def HALF_FOV_WIDTH : ℚ := 1/6

def GRABBER_OFFSET : ℚ := 0.25

def SPEED_OF_SOUND : ℚ := 346

def BRAKE : ℚ := 0

/-- COAST = 0.00000001 (the coast sentinel). -/
def COAST : ℚ := 0.00000001

/-! ## MotorList / MotorBoard (lines 29-58) -/

/-- MotorList.__setitem__ (lines 35-38): the body is
`value = min(max(value, -MAX_MOTOR_SPEED), MAX_MOTOR_SPEED)` followed by the
store; it can raise nothing, which the `Except` result type records.  The
returned rational is the value stored in the channel. -/
def motorlist_set_item (value : ℚ) : Except Unit ℚ :=
  Except.ok (min (max value (-MAX_MOTOR_SPEED)) MAX_MOTOR_SPEED)

/-- MotorBoard._check_voltage (lines 51-54): raises ValueError for any value
other than COAST outside [-1, 1] (the message of the source is
"Incorrect voltage value, valid values: between -1 and 1, robot.COAST, or
robot.BRAKE"). -/
def check_voltage (new_voltage : ℚ) : Except Unit Unit :=
  if new_voltage ≠ COAST ∧ (new_voltage > 1 ∨ new_voltage < -1) then
    Except.error ()
  else
    Except.ok ()

/-- Clamping to [-1, 1] as the spec words it, for comparison with the
stored value. -/
def clamp_spec (v : ℚ) : ℚ := min (max v (-1)) 1

/-- Stored motor value as claim C7 words it: `clamp(v, -1, 1)` except that
the coast sentinel passes through unchanged. -/
def stored_value_spec (v : ℚ) : ℚ :=
  if v = COAST then v else clamp_spec v

/-! ## Arena objects -/

/-- Modelled from the spec: `GameObject` (its module is not under `src/`) is
the capability set of an arena object — location `(x, y)`, optional
`marker_id`, `grabbable` and `grabbed` flags — extended with the fields the
source reads from object variants: whether the object is a `SimRobot`
(`isinstance(o, SimRobot)` in the camera), whether it owns a physics body
(`hasattr` probing for a `_body` attribute in grab/release), and the linear velocity of its body
(zero for bodiless objects). -/
structure GObj where
  px : ℚ
  py : ℚ
  vx : ℚ
  vy : ℚ
  markerId : Option ℕ
  isRobot : Bool
  grabbable : Bool
  grabbed : Bool
  hasBody : Bool
deriving DecidableEq

/-! ## Grab / release (lines 329-378) -/

/-- AlreadyHoldingSomethingException (lines 22-24). -/
inductive GrabException where
  | alreadyHoldingSomething
deriving DecidableEq

/-- Robot state touched by grab/release: the pose snapshot, the arena
object sequence, `_holding` (an index into the arena sequence, standing for
the Python object reference) and `_holding_joint` (the weld-joint handle;
`none` embeds both the initial unset attribute and an explicit `None`). -/
structure RobotState where
  x : ℚ
  y : ℚ
  heading : ℚ
  objs : List GObj
  holding : Option ℕ
  holdingJoint : Option Unit
deriving DecidableEq

/-- object_filter of grab (lines 337-350): grabbable, within GRAB_RADIUS,
within the grab sector after the bearing adjustment of the source, not grabbed.
The adjustment is embedded verbatim (in π-units `math.pi` is `1`): the
second branch of the source compares `rel_heading < math.pi` (not `< -pi`),
so it fires for every value below π. -/
def grab_object_filter (atan2u : ℚ → ℚ → ℚ) (x y heading : ℚ) (o : GObj) :
    Bool :=
  let rel_x := o.px - x
  let rel_y := o.py - y
  let direction := atan2u rel_y rel_x
  let rel_heading0 := direction - heading
  let rel_heading :=
    if rel_heading0 > 1 then rel_heading0 - 2
    else if rel_heading0 < 1 then rel_heading0 + 2
    else rel_heading0
  o.grabbable &&
    (rel_x ^ 2 + rel_y ^ 2 ≤ GRAB_RADIUS ^ 2) &&
    (-HALF_GRAB_SECTOR_WIDTH < rel_heading &&
      rel_heading < HALF_GRAB_SECTOR_WIDTH) &&
    !o.grabbed

/-- First element of a list satisfying `p`, with its position: this embeds
`list(filter(object_filter, self.arena.objects))[0]` together with the
identity of that element inside the arena sequence (the Python reference). -/
def firstMatch {α : Type} (p : α → Bool) : List α → Option (ℕ × α)
  | [] => none
  | o :: rest =>
    if p o then some (0, o)
    else (firstMatch p rest).map (fun q => (q.1 + 1, q.2))

/-- SimRobot.grab (lines 329-366).  Raises AlreadyHoldingSomethingException
when `_holding` is set; otherwise takes the first arena object passing the
filter, records it as held, creates the weld joint when the object has a
physics body (otherwise `_holding_joint` is left as it was), marks the
object grabbed (`self._holding.grab()`), and returns True; returns False if
no object passes. -/
def grab (atan2u : ℚ → ℚ → ℚ) (s : RobotState) :
    Except GrabException (Bool × RobotState) :=
  if s.holding.isSome then
    Except.error GrabException.alreadyHoldingSomething
  else
    match firstMatch (grab_object_filter atan2u s.x s.y s.heading) s.objs with
    | some fnd =>
      Except.ok (true,
        { s with
          holding := some fnd.1
          holdingJoint := if fnd.2.hasBody then some () else s.holdingJoint
          objs := s.objs.set fnd.1 { fnd.2 with grabbed := true } })
    | none => Except.ok (false, s)

/-- SimRobot.release (lines 368-378).  When holding: mark the object
not-grabbed (`self._holding.release()`), destroy the joint and clear
`_holding_joint` when the object has a body, clear `_holding`, return True;
otherwise return False.  The inner `none` arm is unreachable: `_holding`
always references an object of the arena sequence. -/
def release (s : RobotState) : Bool × RobotState :=
  match s.holding with
  | some i =>
    match s.objs[i]? with
    | some o =>
      (true,
        { s with
          objs := s.objs.set i { o with grabbed := false }
          holdingJoint := if o.hasBody then none else s.holdingJoint
          holding := none })
    | none => (true, { s with holding := none })
  | none => (false, s)

/-- Object currently referenced by `_holding`, if any. -/
def heldObj (s : RobotState) : Option GObj :=
  s.holding.bind (fun i => s.objs[i]?)

/-- Whether the held object exists and has a physics body. -/
def heldHasBody (s : RobotState) : Bool :=
  (heldObj s).elim false GObj.hasBody

/-- Invariant of claim C5: `_holding_joint` is non-null iff `_holding` is
non-null and the held object has a physics body. -/
def HoldInv (s : RobotState) : Prop :=
  s.holdingJoint.isSome = heldHasBody s

/-- One user-visible operation of the grab/release state machine. -/
inductive HoldOp where
  | grabOp
  | releaseOp
deriving DecidableEq

/-- Effect of one operation on the robot state.  A raised
AlreadyHoldingSomethingException leaves the state untouched. -/
def runOp (atan2u : ℚ → ℚ → ℚ) (s : RobotState) : HoldOp → RobotState
  | HoldOp.grabOp =>
    match grab atan2u s with
    | Except.ok r => r.2
    | Except.error _ => s
  | HoldOp.releaseOp => (release s).2

/-- State after a sequence of grab/release operations. -/
def runOps (atan2u : ℚ → ℚ → ℚ) (ops : List HoldOp) (s : RobotState) :
    RobotState :=
  ops.foldl (runOp atan2u) s

/-- Concrete bearing oracle for closed evaluations: it returns exactly
`atan2(y, x) / π` on the axis directions (the only bearings the closed
evaluations below use; in Python `atan2(0, x) = 0` for `0 ≤ x`, including
`atan2(0, 0) = 0`), and a same-quadrant rational surrogate off the axes. -/
def qatan2 (y x : ℚ) : ℚ :=
  if y = 0 then (if 0 ≤ x then 0 else 1)
  else if x = 0 then (if 0 < y then 1/2 else -(1/2))
  else if 0 < x then (y / (|x| + |y|)) / 2
  else if 0 < y then 1 - (y / (|x| + |y|)) / 2
  else -1 - (y / (|x| + |y|)) / 2

/-! ## Camera (lines 122-183) -/

/-- Modelled from the spec: the `game_specific` tables (`MARKER_SIZES`,
`WALL`, `TOKEN`) are not under `src/`; the arena/game layer supplies a
static marker-id→size table and wall/token id-range membership checks. -/
structure GameConfig where
  markerSizes : ℕ → ℚ
  wallIds : ℕ → Bool
  tokenIds : ℕ → Bool

/-- Pose snapshot `(x, y, heading)` taken by `see()` under the robot lock,
together with the linear velocity of the body of the observing robot read
by `robot_moving(self.robot)`. -/
structure Observer where
  x : ℚ
  y : ℚ
  heading : ℚ
  vx : ℚ
  vy : ℚ
deriving DecidableEq

def MOTION_BLUR_SPEED_THRESHOLD : ℚ := 5

/-- robot_moving (lines 137-139): `hypot(vx, vy) > 5`, embedded through the
squared norm. -/
def robot_moving (vx vy : ℚ) : Bool :=
  vx ^ 2 + vy ^ 2 > MOTION_BLUR_SPEED_THRESHOLD ^ 2

/-- motion_blurred (lines 141-146): the observer is moving, or the object
is itself a SimRobot and is moving.  A moving non-robot object is NOT
blurred (the comment of the source concedes this for tokens carried by
other robots). -/
def motion_blurred (obs : Observer) (o : GObj) : Bool :=
  robot_moving obs.vx obs.vy || (o.isRobot && robot_moving o.vx o.vy)

/-- object_filter of see (lines 148-154): has a marker id, within the
±π/6 field of view, not motion blurred.  The conjunct `o is not self` of
the source compares the arena object with the Camera instance (inside
`Camera.see`, `self` is the Camera, not the robot); no Camera object is
ever an element of `arena.objects`, so that test is identically true and
contributes nothing here. -/
def see_object_filter (atan2u : ℚ → ℚ → ℚ) (obs : Observer) (o : GObj) :
    Bool :=
  let direction := atan2u (o.py - obs.y) (o.px - obs.x)
  o.markerId.isSome &&
    (-HALF_FOV_WIDTH < direction - obs.heading &&
      direction - obs.heading < HALF_FOV_WIDTH) &&
    !(motion_blurred obs o)

/-- PolarCoord (vision collaborator): the source stores
`distance_meters = hypot(rel_x, rel_y)`, `rot_y_rad` and `rot_y_deg`.  The
distance is embedded by its square `distSq`, which determines it (the
distance is its nonnegative square root); `rotYDeg` is `180 * rotY`
because the π-units value `q` stands for `q·π` rad = `180·q` degrees. -/
structure PolarCoord where
  distSq : ℚ
  rotY : ℚ
  rotYDeg : ℚ
deriving DecidableEq

/-- Marker (vision collaborator, built at lines 173-180): the
`is_wall_marker` / `is_token_marker` lambdas are embedded by their
values. -/
structure Marker where
  id : ℕ
  size : ℚ
  isWallMarker : Bool
  isTokenMarker : Bool
  polar : PolarCoord
deriving DecidableEq

/-- marker_map (lines 162-180).  It is applied only to filtered objects,
whose `marker_id` is not None; `.getD 0` embeds that lookup, which cannot
fall through there. -/
def marker_map (atan2u : ℚ → ℚ → ℚ) (cfg : GameConfig) (obs : Observer)
    (o : GObj) : Marker :=
  let rel_x := o.px - obs.x
  let rel_y := o.py - obs.y
  let rot_y := atan2u rel_y rel_x - obs.heading
  let mid := o.markerId.getD 0
  { id := mid
    size := cfg.markerSizes mid
    isWallMarker := cfg.wallIds mid
    isTokenMarker := cfg.tokenIds mid
    polar := { distSq := rel_x ^ 2 + rel_y ^ 2, rotY := rot_y,
               rotYDeg := 180 * rot_y } }

/-- Camera.see (lines 126-183): map `marker_map` over the filtered arena
objects and sort ascending by distance (the sort key `distance_meters` is
compared through its square, which orders identically). -/
def see (atan2u : ℚ → ℚ → ℚ) (cfg : GameConfig) (obs : Observer)
    (objs : List GObj) : List Marker :=
  ((objs.filter (see_object_filter atan2u obs)).map
      (marker_map atan2u cfg obs)).mergeSort
    (fun a b => a.polar.distSq ≤ b.polar.distSq)

/-! ## Ultrasound (lines 60-111 and 222-257) -/

/-- Intersection record returned by world.ray_cast: the source destructures
`(fixture, intercept_point, normal, fraction)` and uses only the fraction
along the ray; the rest of the record is kept abstract behind a fixture
number. -/
structure RayHit where
  fixture : ℕ
  fraction : ℚ
deriving DecidableEq

/-- World ray-cast collaborator: the list of intersection records of the
ray cast from the world centre of the body towards the target point at
distance `cast_range` in direction `θ·π`, indexed by the cast angle `θ`
(π-units).  The target point computed by the source
(`centre + cast_range·(cos θπ, sin θπ)`) is determined by the centre and
the angle, so indexing by the angle loses nothing. -/
structure UltraWorld where
  rayCast : ℚ → List RayHit

/-- Sensing directions of ULTRASOUND_ANGLES (lines 70-74). -/
inductive UltraDirection where
  | ahead
  | right
  | left
deriving DecidableEq

/-- ULTRASOUND_ANGLES (lines 70-74): pin pair → (direction label, angle
offset); the offsets 0, π/2, −π/2 are 0, 1/2, −1/2 in π-units. -/
def ULTRASOUND_ANGLES : List ((ℕ × ℕ) × (UltraDirection × ℚ)) :=
  [((6, 7), (UltraDirection.ahead, 0)),
   ((8, 9), (UltraDirection.right, 1/2)),
   ((10, 11), (UltraDirection.left, -(1/2)))]

def spread_casts : ℕ := 10

/-- spread_maximum_angle_radians = radians(10) = π/18 rad, i.e. 1/18
π-units. -/
def spread_maximum_angle : ℚ := 1/18

/-- Fan offsets (lines 234-237): the source iterates
`x in range(-spread_casts, spread_casts + 1)` with offset
`spread_maximum_angle * (x / spread_casts)`; here `k` runs over
`0 .. 2·spread_casts` and `x = k - spread_casts`. -/
def spreadOffsets : List ℚ :=
  (List.range (2 * spread_casts + 1)).map
    (fun (k : ℕ) =>
      spread_maximum_angle * (((k : ℚ) - (spread_casts : ℚ)) / (spread_casts : ℚ)))

def cast_range : ℚ := 4

/-- All intersection records collected across the fan (lines 231-245):
`cast.extend(world.ray_cast(...))` for each spread offset. -/
def castHits (w : UltraWorld) (heading angle_offset : ℚ) : List RayHit :=
  spreadOffsets.flatMap
    (fun spread_offset => w.rayCast (heading + angle_offset + spread_offset))

/-- SimRobot._send_ultrasound_ping (lines 222-257): None when no ray hit
anything; otherwise sort the records by fraction along the ray, take the
first, and return `fraction * cast_range`.  (The inner `none` arm is
unreachable: the sorted list of a nonempty list is nonempty.) -/
def send_ultrasound_ping (w : UltraWorld) (heading angle_offset : ℚ) :
    Option ℚ :=
  let cast := castHits w heading angle_offset
  if cast.isEmpty then none
  else
    match (cast.mergeSort (fun a b => a.fraction ≤ b.fraction)).head? with
    | some first => some (first.fraction * cast_range)
    | none => none

/-- UltrasoundSensor._read_ultrasound (lines 87-111): unknown pin pairs log
the valid pin table and return 0.0 (embedded by the result alone — printing
is a side effect outside the model); a ping of None becomes 0.0. -/
def read_ultrasound (w : UltraWorld) (heading : ℚ) (trigger_pin echo_pin : ℕ) :
    ℚ :=
  match ULTRASOUND_ANGLES.lookup (trigger_pin, echo_pin) with
  | none => 0
  | some d =>
    match send_ultrasound_ping w heading d.2 with
    | none => 0
    | some result => result

/-- UltrasoundSensor.distance (lines 81-82). -/
def ultrasound_distance (w : UltraWorld) (heading : ℚ)
    (trigger_pin echo_pin : ℕ) : ℚ :=
  read_ultrasound w heading trigger_pin echo_pin

/-- UltrasoundSensor.pulse (lines 84-85). -/
def ultrasound_pulse (w : UltraWorld) (heading : ℚ)
    (trigger_pin echo_pin : ℕ) : ℚ :=
  read_ultrasound w heading trigger_pin echo_pin / SPEED_OF_SOUND

/-! ## Wheel forces (lines 193-196 and 291-325) -/

/-- SimRobot.width = 0.3 (line 194). -/
def width : ℚ := 0.3

/-- Physics-body view used by _apply_wheel_force: world position, the
cosine `c` and sine `s` of the body angle (the source reads the angle only
through `cos`/`sin` and the frame maps the engine computes from the same
rotation), and the engine map `get_linear_velocity_from_local_point`. -/
structure Body where
  posX : ℚ
  posY : ℚ
  c : ℚ
  s : ℚ
  velAtLocal : ℚ × ℚ → ℚ × ℚ

/-- body.get_world_point (engine): position plus the rotated local
point. -/
def get_world_point (b : Body) (p : ℚ × ℚ) : ℚ × ℚ :=
  (b.posX + b.c * p.1 - b.s * p.2, b.posY + b.s * p.1 + b.c * p.2)

/-- body.get_local_vector (engine): the inverse rotation applied to a world
vector; its first component is the local forward (x) component, its second
the local lateral (y) component. -/
def get_local_vector (b : Body) (v : ℚ × ℚ) : ℚ × ℚ :=
  (b.c * v.1 + b.s * v.2, -b.s * v.1 + b.c * v.2)

/-- SimRobot._apply_wheel_force (lines 291-308), returning the pair
(world-space force, world-space application point) handed to
body.apply_force.  `cos(self.heading)` and `sin(self.heading)` are `b.c`
and `b.s`.  The friction term of the source is
`frict_x * frict_multiplier` where `frict_x` is the FIRST (local forward)
component of the local point velocity. -/
def apply_wheel_force (b : Body) (y_position : ℚ) (power : ℚ) :
    (ℚ × ℚ) × (ℚ × ℚ) :=
  let location_world_space := get_world_point b (0, y_position)
  let force_magnitude0 : ℚ := if power ≠ COAST then power * 100 * 0.6 else 0
  let frict_multiplier : ℚ := if power ≠ COAST then 50.2 else 5.2
  let frict_world := b.velAtLocal (0, y_position)
  let frict := get_local_vector b frict_world
  let force_magnitude := force_magnitude0 - frict.1 * frict_multiplier
  ((force_magnitude * b.c, force_magnitude * b.s), location_world_space)

/-- Wheel part of SimRobot.tick (lines 313-319): left wheel with
motors[0] at local y = −half_width, right wheel with motors[1] at
+half_width.  (The subsequent lateral-impulse step of tick is outside
claim C4.) -/
def tick_wheel_forces (b : Body) (m0 m1 : ℚ) :
    List ((ℚ × ℚ) × (ℚ × ℚ)) :=
  let half_width := width * 0.5
  [apply_wheel_force b (-half_width) m0, apply_wheel_force b half_width m1]

/-- Wheel force exactly as claim C4 words it: the friction coefficient
multiplies the LATERAL (local y) velocity component of the wheel point. -/
def wheel_force_claim_lateral (b : Body) (y_position power : ℚ) :
    (ℚ × ℚ) × (ℚ × ℚ) :=
  let mag := (if power ≠ COAST then power * 100 * 0.6 else 0)
    - (get_local_vector b (b.velAtLocal (0, y_position))).2
      * (if power ≠ COAST then 50.2 else 5.2)
  ((mag * b.c, mag * b.s), get_world_point b (0, y_position))

/-- Wheel force as amended: the friction coefficient multiplies the local
FORWARD (x) velocity component of the wheel point. -/
def wheel_force_forward (b : Body) (y_position power : ℚ) :
    (ℚ × ℚ) × (ℚ × ℚ) :=
  let mag := (if power ≠ COAST then power * 100 * 0.6 else 0)
    - (get_local_vector b (b.velAtLocal (0, y_position))).1
      * (if power ≠ COAST then 50.2 else 5.2)
  ((mag * b.c, mag * b.s), get_world_point b (0, y_position))

/-! ## Concrete states for closed evaluations -/

/-- Marker tables for closed camera evaluations: every marker has size
0.25; ids below 100 are wall markers, ids from 100 on are token markers. -/
def cfg0 : GameConfig :=
  { markerSizes := fun _ => 0.25
    wallIds := fun n => n < 100
    tokenIds := fun n => 100 ≤ n }

/-- Stationary observer at the origin facing heading 0. -/
def obs0 : Observer := { x := 0, y := 0, heading := 0, vx := 0, vy := 0 }

/-- Non-robot token one unit dead ahead carrying a marker id, moving at
speed 10 — strictly beyond the motion-blur threshold 5. -/
def fastToken : GObj :=
  { px := 1, py := 0, vx := 10, vy := 0, markerId := some 120,
    isRobot := false, grabbable := true, grabbed := false, hasBody := true }

/-- Arena object standing for the observing robot itself: located at the
pose of the observer, robot-typed, stationary, carrying a marker id. -/
def selfRobotObj : GObj :=
  { px := 0, py := 0, vx := 0, vy := 0, markerId := some 7,
    isRobot := true, grabbable := false, grabbed := false, hasBody := true }

/-- Concrete body for the C4 counterexample: identity orientation, every
wheel point moving with world velocity (1, 2). -/
def cBody : Body :=
  { posX := 0, posY := 0, c := 1, s := 0, velAtLocal := fun _ => (1, 2) }

/-- Grabbable, not-yet-grabbed token 0.3 units dead ahead of the origin. -/
def tokenNear : GObj :=
  { px := 0.3, py := 0, vx := 0, vy := 0, markerId := some 2,
    isRobot := false, grabbable := true, grabbed := false, hasBody := true }

/-- The identical token at distance 1.0 (outside the 0.6 grab radius). -/
def tokenFar : GObj := { tokenNear with px := 1 }

/-- Robot at the origin facing heading 0 with `tokenNear` as the only arena
object. -/
def grabStateNear : RobotState :=
  { x := 0, y := 0, heading := 0, objs := [tokenNear],
    holding := none, holdingJoint := none }

/-- Robot at the origin facing heading 0 with `tokenFar` as the only arena
object. -/
def grabStateFar : RobotState := { grabStateNear with objs := [tokenFar] }

/-- Robot with an empty arena, holding nothing. -/
def emptyArenaState : RobotState :=
  { x := 0, y := 0, heading := 0, objs := [], holding := none,
    holdingJoint := none }

/-- Robot whose body angle is `-2π` (the heading accessor returns the raw
body angle, which is not wrapped): `tokenNear` is dead ahead, and for this
state the bearing adjustment of the source lands back inside the grab
sector, so `grab()` succeeds. -/
def grabSuccessState : RobotState :=
  { x := 0, y := 0, heading := -2, objs := [tokenNear], holding := none,
    holdingJoint := none }

/-- State of `grabSuccessState` after its successful grab. -/
def heldAfterGrab : RobotState :=
  { x := 0, y := 0, heading := -2, objs := [{ tokenNear with grabbed := true }],
    holding := some 0, holdingJoint := some () }

end SimBot

namespace SimBot

/-! ## Helper lemmas -/

theorem firstMatch_eq_some {α : Type} {p : α → Bool} {l : List α} :
    ∀ {i : ℕ} {a : α}, firstMatch p l = some (i, a) →
      l[i]? = some a ∧ p a = true := by
  induction l with
  | nil => intro i a h; simp [firstMatch] at h
  | cons o rest ih =>
    intro i a h
    by_cases hp : p o
    · simp [firstMatch, hp] at h
      obtain ⟨hi, ha⟩ := h
      subst hi
      subst ha
      exact ⟨by simp, hp⟩
    · cases hrec : firstMatch p rest with
      | none => simp [firstMatch, hp, hrec] at h
      | some q =>
        simp [firstMatch, hp, hrec] at h
        obtain ⟨hi, ha⟩ := h
        have hr := ih hrec
        subst hi
        subst ha
        exact ⟨by simpa using hr.1, hr.2⟩

/-- Grab leaves the holding invariant intact (raised exceptions leave the
state untouched). -/
theorem HoldInv_grab (u : ℚ → ℚ → ℚ) (s : RobotState) (h : HoldInv s) :
    HoldInv (runOp u s HoldOp.grabOp) := by
  unfold runOp
  by_cases hh : s.holding.isSome
  · simpa [grab, hh] using h
  · have hhn : s.holding = none := Option.not_isSome_iff_eq_none.mp hh
    cases hfm : firstMatch (grab_object_filter u s.x s.y s.heading) s.objs with
    | none => simpa [grab, hh, hfm] using h
    | some fnd =>
      obtain ⟨i, o⟩ := fnd
      have hio := firstMatch_eq_some hfm
      have hlen : i < s.objs.length := (List.getElem?_eq_some.mp hio.1).1
      have hjn : s.holdingJoint = none := by
        unfold HoldInv heldHasBody heldObj at h
        rw [hhn] at h
        simp at h
        exact Option.not_isSome_iff_eq_none.mp (by simp [h])
      simp only [grab, hh, hfm, Bool.false_eq_true, if_false]
      unfold HoldInv heldHasBody heldObj
      simp only [Option.bind_some, Option.some_bind]
      rw [List.getElem?_set]
      simp only [if_pos rfl, if_pos hlen]
      by_cases hb : o.hasBody
      · simp [hb]
      · simp [hb, hjn]

/-- Release leaves the holding invariant intact. -/
theorem HoldInv_release (s : RobotState) (h : HoldInv s) :
    HoldInv (release s).2 := by
  unfold HoldInv heldHasBody heldObj at h ⊢
  unfold release
  cases hh : s.holding with
  | none => simpa [hh] using h
  | some i =>
    rw [hh] at h
    cases ho : s.objs[i]? with
    | none =>
      simp only [ho]
      simp [ho] at h
      simpa using h
    | some o =>
      simp only [ho]
      simp [ho] at h
      by_cases hb : o.hasBody
      · simp [hb]
      · simp [hb] at h
        simp [hb, h]

/-! ## Claims C7 and C10 -/

/-- Claim C7: for every value v written to a motor channel, the stored value
equals clamp(v, -1, 1), except that the coast sentinel (1e-8) passes through
unchanged.  (The source clamps unconditionally; the coast sentinel lies
inside [-1, 1], so clamping fixes it and the two descriptions agree.) -/
theorem c7_motor_clamp :
    ∀ v : ℚ, motorlist_set_item v = Except.ok (stored_value_spec v) := by
  intro v
  unfold motorlist_set_item stored_value_spec clamp_spec MAX_MOTOR_SPEED COAST
  split
  · subst v; norm_num
  · rfl

/-- Claim C10: writing any value through `motor_board.motors[index] = value`
never raises: the result is always `ok` with the value clamped into [-1, 1],
even on inputs that `MotorBoard._check_voltage` would reject — that
validation is not part of this assignment path. -/
theorem c10_setitem_never_raises :
    (∀ v : ℚ, ∃ w : ℚ, motorlist_set_item v = Except.ok w ∧ -1 ≤ w ∧ w ≤ 1) ∧
    (∀ v : ℚ, v ≠ COAST → (v < -1 ∨ 1 < v) → check_voltage v = Except.error ()) ∧
    (∀ v : ℚ, (v < -1 ∨ 1 < v) →
      motorlist_set_item v = Except.ok (if v < -1 then -1 else 1)) := by
  refine ⟨?_, ?_, ?_⟩
  · intro v
    refine ⟨min (max v (-1)) 1, ?_, ?_, ?_⟩
    · rfl
    · have h1 : (-1 : ℚ) ≤ max v (-1) := le_max_right v (-1)
      exact le_min h1 (by norm_num)
    · exact min_le_right _ 1
  · intro v hv hout
    unfold check_voltage
    rw [if_pos]
    exact ⟨hv, hout.symm⟩
  · intro v hout
    unfold motorlist_set_item MAX_MOTOR_SPEED
    rcases hout with h | h
    · have hmax : max v (-1) = -1 := max_eq_right h.le
      rw [if_pos h]
      rw [hmax]
      norm_num
    · have hmax : (1 : ℚ) ≤ max v (-1) := le_max_of_le_left h.le
      have hmin : min (max v (-1)) 1 = 1 := min_eq_right hmax
      rw [if_neg (by linarith)]
      rw [hmin]

/-- Witness for C10 at v = 2: the assignment stores a value in range, the
voltage check would have rejected 2, and the stored value is the clamp 1. -/
theorem c10_setitem_never_raises_witness :
    (∃ w : ℚ, motorlist_set_item 2 = Except.ok w ∧ -1 ≤ w ∧ w ≤ 1) ∧
    check_voltage 2 = Except.error () ∧
    motorlist_set_item 2 = Except.ok (if (2 : ℚ) < -1 then -1 else 1) := by
  refine ⟨c10_setitem_never_raises.1 2, ?_, ?_⟩
  · exact c10_setitem_never_raises.2.1 2 (by unfold COAST; norm_num) (by norm_num)
  · exact c10_setitem_never_raises.2.2 2 (by norm_num)

/-! ## Claims C1, C5, C8, C9 -/

/-- Claim C1 (code behaviour at the failing input): with the robot at the
origin facing heading 0 and a single grabbable, not-yet-grabbed object dead
ahead at distance 0.3 — grabbable, ungrabbed, within the 0.6 radius, at
bearing exactly 0 — `grab()` returns False and changes nothing, because the
bearing adjustment of the source adds 2π to every relative bearing below π,
pushing 0 out of the ±π/4 sector.  (The identical object at distance 1.0 is
likewise never selected, as the claim also states.) -/
theorem c1_grab_dead_ahead_returns_false :
    grab qatan2 grabStateNear = Except.ok (false, grabStateNear) ∧
    grab qatan2 grabStateFar = Except.ok (false, grabStateFar) ∧
    tokenNear.grabbable = true ∧
    tokenNear.grabbed = false ∧
    (tokenNear.px - grabStateNear.x) ^ 2 + (tokenNear.py - grabStateNear.y) ^ 2
      ≤ GRAB_RADIUS ^ 2 ∧
    qatan2 (tokenNear.py - grabStateNear.y) (tokenNear.px - grabStateNear.x)
      - grabStateNear.heading = 0 := by
  refine ⟨?_, ?_, rfl, rfl, ?_, ?_⟩
  · norm_num [grab, grabStateNear, firstMatch, grab_object_filter, qatan2,
      tokenNear, GRAB_RADIUS, HALF_GRAB_SECTOR_WIDTH]
  · norm_num [grab, grabStateFar, grabStateNear, firstMatch,
      grab_object_filter, qatan2, tokenFar, tokenNear, GRAB_RADIUS,
      HALF_GRAB_SECTOR_WIDTH]
  · norm_num [tokenNear, grabStateNear, GRAB_RADIUS]
  · norm_num [tokenNear, grabStateNear, qatan2]

/-- Claim C5: every sequence of grab() and release() operations preserves
the invariant that `_holding_joint` is non-null iff `_holding` is non-null
and the held object has a physics body. -/
theorem c5_holding_joint_invariant :
    ∀ (u : ℚ → ℚ → ℚ) (ops : List HoldOp) (s : RobotState),
      HoldInv s → HoldInv (runOps u ops s) := by
  intro u ops
  induction ops with
  | nil => intro s h; simpa [runOps] using h
  | cons op rest ih =>
    intro s h
    have h1 : HoldInv (runOp u s op) := by
      cases op
      · exact HoldInv_grab u s h
      · exact HoldInv_release s h
    simpa [runOps] using ih (runOp u s op) h1

/-- Witness for C5: a concrete grab-then-release run from a state satisfying
the invariant. -/
theorem c5_holding_joint_invariant_witness :
    HoldInv (runOps qatan2 [HoldOp.grabOp, HoldOp.releaseOp] grabSuccessState) :=
  c5_holding_joint_invariant qatan2 _ grabSuccessState
    (by simp [HoldInv, heldHasBody, heldObj, grabSuccessState])

/-- Claim C8 is false as stated: on a robot with an empty arena the first
grab() returns False and leaves the state unchanged, so the second,
immediately following grab() is the same call on the same state and returns
False as well instead of signalling the already-holding condition. -/
theorem c8_counterexample_empty_arena :
    grab qatan2 emptyArenaState = Except.ok (false, emptyArenaState) ∧
    grab qatan2 emptyArenaState
      ≠ Except.error GrabException.alreadyHoldingSomething := by
  constructor
  · simp [grab, emptyArenaState, firstMatch]
  · simp [grab, emptyArenaState, firstMatch]

/-- Claim C8 as amended: whenever a grab() succeeds (returns true), an
immediately following grab() on the resulting state always signals the
already-holding condition. -/
theorem c8_second_grab_after_success :
    ∀ (u : ℚ → ℚ → ℚ) (s s2 : RobotState),
      grab u s = Except.ok (true, s2) →
      grab u s2 = Except.error GrabException.alreadyHoldingSomething := by
  intro u s s2 h
  unfold grab at h
  by_cases hh : s.holding.isSome
  · simp [hh] at h
  · simp only [hh, Bool.false_eq_true, if_false] at h
    cases hfm : firstMatch (grab_object_filter u s.x s.y s.heading) s.objs with
    | none => rw [hfm] at h; simp at h
    | some fnd =>
      rw [hfm] at h
      simp only [Except.ok.injEq, Prod.mk.injEq, true_and] at h
      rw [← h]
      simp [grab]

/-- Witness for C8 as amended: at body angle −2π the token dead ahead is
grabbed (the bearing adjustment of the source maps its relative bearing 2π
back to 0), and the second grab() raises. -/
theorem c8_second_grab_after_success_witness :
    grab qatan2 grabSuccessState = Except.ok (true, heldAfterGrab) ∧
    grab qatan2 heldAfterGrab
      = Except.error GrabException.alreadyHoldingSomething := by
  have h1 : grab qatan2 grabSuccessState = Except.ok (true, heldAfterGrab) := by
    norm_num [grab, grabSuccessState, firstMatch, grab_object_filter, qatan2,
      tokenNear, GRAB_RADIUS, HALF_GRAB_SECTOR_WIDTH, heldAfterGrab]
  exact ⟨h1, c8_second_grab_after_success qatan2 grabSuccessState heldAfterGrab h1⟩

/-- Claim C9: release() with nothing held returns False and leaves the
entire robot and arena state unchanged; release() while holding an object
(under the holding invariant) unmarks the object as grabbed, leaves
`_holding_joint` destroyed (None), clears `_holding`, and returns True. -/
theorem c9_release_contract :
    (∀ s : RobotState, s.holding = none → release s = (false, s)) ∧
    (∀ (s : RobotState) (i : ℕ) (o : GObj), HoldInv s → s.holding = some i →
      s.objs[i]? = some o →
      release s = (true,
        { s with
          objs := s.objs.set i { o with grabbed := false },
          holding := none,
          holdingJoint := none })) := by
  constructor
  · intro s hs
    unfold release
    rw [hs]
  · intro s i o hinv hs ho
    unfold release
    simp only [hs, ho]
    by_cases hb : o.hasBody
    · simp [hb]
    · have hjn : s.holdingJoint = none := by
        unfold HoldInv heldHasBody heldObj at hinv
        rw [hs] at hinv
        simp [ho, hb] at hinv
        exact Option.not_isSome_iff_eq_none.mp (by simp [hinv])
      simp [hb, hjn]

/-- Witness for C9: the empty-handed case on a concrete free robot, and the
held case on the concrete post-grab state. -/
theorem c9_release_contract_witness :
    release emptyArenaState = (false, emptyArenaState) ∧
    release heldAfterGrab = (true,
      { heldAfterGrab with
        objs := heldAfterGrab.objs.set 0
          { { tokenNear with grabbed := true } with grabbed := false },
        holding := none,
        holdingJoint := none }) := by
  constructor
  · exact c9_release_contract.1 emptyArenaState rfl
  · exact c9_release_contract.2 heldAfterGrab 0 { tokenNear with grabbed := true }
      (by simp [HoldInv, heldHasBody, heldObj, heldAfterGrab, tokenNear]) rfl rfl


/-! ## Claims C2, C3, C4, C6 -/

/-- Head of a list sorted ascending by a rational key is a member with the
minimal key. -/
theorem head_mergeSort_min {α : Type} (key : α → ℚ) (l : List α)
    (hl : l ≠ []) :
    ∃ m, (l.mergeSort (fun a b => key a ≤ key b)).head? = some m ∧ m ∈ l ∧
      ∀ x ∈ l, key m ≤ key x := by
  have htrans : ∀ a b c : α, (fun a b => decide (key a ≤ key b)) a b = true →
      (fun a b => decide (key a ≤ key b)) b c = true →
      (fun a b => decide (key a ≤ key b)) a c = true := by
    intro a b c hab hbc
    simp only [decide_eq_true_eq] at hab hbc ⊢
    exact le_trans hab hbc
  have htotal : ∀ a b : α, ((fun a b => decide (key a ≤ key b)) a b ||
      (fun a b => decide (key a ≤ key b)) b a) = true := by
    intro a b
    simp only [Bool.or_eq_true, decide_eq_true_eq]
    exact le_total _ _
  have hsorted := List.sorted_mergeSort htrans htotal l
  have hperm := List.mergeSort_perm l (fun a b => decide (key a ≤ key b))
  cases hms : l.mergeSort (fun a b => decide (key a ≤ key b)) with
  | nil =>
    rw [hms] at hperm
    exact absurd (List.Perm.eq_nil hperm.symm) hl
  | cons m rest =>
    rw [hms] at hperm hsorted
    refine ⟨m, by simp, hperm.mem_iff.mp (by simp), ?_⟩
    intro x hx
    have hx2 : x ∈ m :: rest := hperm.symm.mem_iff.mp hx
    rcases List.mem_cons.mp hx2 with h | h
    · rw [h]
    · have hmx := List.rel_of_pairwise_cons hsorted h
      simpa using hmx

/-- Claim C6: ultrasound distance() returns 0.0 when the pin pair is not in
the configuration table; returns 0.0 when no ray of the fan intersects
anything; and otherwise returns fraction × cast_range (4.0) for the record
with the smallest fraction across the whole fan — which has 2·10+1 = 21
rays spread uniformly over ±10 degrees (±1/18 π-units) around
heading + angle_offset. -/
theorem c6_ultrasound_contract :
    (∀ (w : UltraWorld) (heading : ℚ) (t e : ℕ),
      ULTRASOUND_ANGLES.lookup (t, e) = none →
      ultrasound_distance w heading t e = 0) ∧
    (∀ (w : UltraWorld) (heading : ℚ) (t e : ℕ) (d : UltraDirection × ℚ),
      ULTRASOUND_ANGLES.lookup (t, e) = some d →
      castHits w heading d.2 = [] →
      ultrasound_distance w heading t e = 0) ∧
    (∀ (w : UltraWorld) (heading : ℚ) (t e : ℕ) (d : UltraDirection × ℚ),
      ULTRASOUND_ANGLES.lookup (t, e) = some d →
      castHits w heading d.2 ≠ [] →
      ∃ hit, hit ∈ castHits w heading d.2 ∧
        (∀ hit2 ∈ castHits w heading d.2, hit.fraction ≤ hit2.fraction) ∧
        ultrasound_distance w heading t e = hit.fraction * cast_range) ∧
    spreadOffsets.length = 2 * spread_casts + 1 ∧
    spreadOffsets = (List.range 21).map (fun (k : ℕ) => ((k : ℚ) - 10) / 180) := by
  refine ⟨?_, ?_, ?_, ?_, ?_⟩
  · intro w heading t e hl
    unfold ultrasound_distance read_ultrasound
    rw [hl]
  · intro w heading t e d hl hc
    unfold ultrasound_distance read_ultrasound
    rw [hl]
    simp [send_ultrasound_ping, hc]
  · intro w heading t e d hl hc
    obtain ⟨m, hhead, hmem, hmin⟩ :=
      head_mergeSort_min RayHit.fraction (castHits w heading d.2) hc
    refine ⟨m, hmem, hmin, ?_⟩
    unfold ultrasound_distance read_ultrasound
    rw [hl]
    unfold send_ultrasound_ping
    have he : (castHits w heading d.2).isEmpty = false := by
      simp [List.isEmpty_iff, hc]
    simp only [he, Bool.false_eq_true, if_false]
    rw [hhead]
  · unfold spreadOffsets spread_casts
    rw [List.length_map, List.length_range]
  · unfold spreadOffsets spread_maximum_angle spread_casts
    have h21 : 2 * 10 + 1 = 21 := by norm_num
    rw [h21]
    refine List.map_congr_left (fun k hk => ?_)
    ring

/-- Witness for C6: the unknown pin pair (0, 0) gives 0.0; an empty world
gives 0.0 on the ahead sensor; a world whose every ray reports a hit at
fraction 1/2 gives distance 1/2 × 4 = 2 on the ahead sensor. -/
theorem c6_ultrasound_contract_witness :
    ultrasound_distance { rayCast := fun _ => [] } 0 0 0 = 0 ∧
    ultrasound_distance { rayCast := fun _ => [] } 0 6 7 = 0 ∧
    ultrasound_distance
      { rayCast := fun _ => [{ fixture := 0, fraction := 1/2 }] } 0 6 7 = 2 := by
  refine ⟨?_, ?_, ?_⟩
  · exact c6_ultrasound_contract.1 _ 0 0 0 (by decide)
  · exact c6_ultrasound_contract.2.1 _ 0 6 7 (UltraDirection.ahead, 0)
      (by decide) rfl
  · obtain ⟨hit, hmem, hmin, hval⟩ :=
      c6_ultrasound_contract.2.2.1
        { rayCast := fun _ => [{ fixture := 0, fraction := 1/2 }] } 0 6 7
        (UltraDirection.ahead, 0) (by decide)
        (by decide)
    have hmem2 := hmem
    simp [castHits] at hmem2
    rw [hval, hmem2.2]
    norm_num [cast_range]

/-- Claim C2 is false as stated: with a stationary observer, a non-robot
token dead ahead carrying a marker id and moving at speed 10 (beyond the
blur threshold 5) is returned by see() — the blur test only consults the
observer and robot-typed objects. -/
theorem c2_counterexample_fast_token_visible :
    robot_moving fastToken.vx fastToken.vy = true ∧
    see qatan2 cfg0 obs0 [fastToken] =
      [{ id := 120, size := 0.25, isWallMarker := false, isTokenMarker := true,
         polar := { distSq := 1, rotY := 0, rotYDeg := 0 } }] := by
  constructor
  · norm_num [robot_moving, fastToken, MOTION_BLUR_SPEED_THRESHOLD]
  · norm_num [see, see_object_filter, motion_blurred, robot_moving,
      marker_map, qatan2, fastToken, obs0, cfg0, HALF_FOV_WIDTH,
      MOTION_BLUR_SPEED_THRESHOLD, List.mergeSort_singleton]

/-- Claim C2 as amended: motion blur suppresses an object only through the
speed of the observer or, for robot-typed objects, the speed of the object;
whenever the observer is at or below the threshold, a non-robot object with
a marker id strictly inside the ±30° field of view is included in see()
regardless of its own speed. -/
theorem c2_blur_ignores_token_speed :
    ∀ (u : ℚ → ℚ → ℚ) (cfg : GameConfig) (obs : Observer)
      (objs : List GObj) (o : GObj),
      o ∈ objs →
      robot_moving obs.vx obs.vy = false →
      o.isRobot = false →
      o.markerId.isSome = true →
      -HALF_FOV_WIDTH < u (o.py - obs.y) (o.px - obs.x) - obs.heading →
      u (o.py - obs.y) (o.px - obs.x) - obs.heading < HALF_FOV_WIDTH →
      marker_map u cfg obs o ∈ see u cfg obs objs := by
  intro u cfg obs objs o hmem hobs hrob hmid hfov1 hfov2
  unfold see
  rw [List.mem_mergeSort]
  refine List.mem_map_of_mem _ (List.mem_filter.mpr ⟨hmem, ?_⟩)
  simp [see_object_filter, motion_blurred, hobs, hrob, hmid, hfov1, hfov2]

/-- Witness for C2 as amended, at the fast token: every hypothesis holds
and the marker of the token is in the result of see(). -/
theorem c2_blur_ignores_token_speed_witness :
    marker_map qatan2 cfg0 obs0 fastToken ∈ see qatan2 cfg0 obs0 [fastToken] := by
  refine c2_blur_ignores_token_speed qatan2 cfg0 obs0 [fastToken] fastToken
    (by simp) ?_ rfl rfl ?_ ?_
  · norm_num [robot_moving, obs0, MOTION_BLUR_SPEED_THRESHOLD]
  · norm_num [qatan2, fastToken, obs0, HALF_FOV_WIDTH]
  · norm_num [qatan2, fastToken, obs0, HALF_FOV_WIDTH]

/-- Claim C3 (code behaviour at the failing input): when the observing
robot itself is in the arena sequence carrying a marker id (here at the
origin, heading 0, stationary), see() returns a marker for it — at distance
0 — because the `o is not self` test of the source compares arena objects
against the Camera instance and never against the robot.  The claim that
see() never includes the observing robot fails. -/
theorem c3_see_includes_observing_robot :
    selfRobotObj.isRobot = true ∧
    selfRobotObj.px = obs0.x ∧
    selfRobotObj.py = obs0.y ∧
    see qatan2 cfg0 obs0 [selfRobotObj] =
      [{ id := 7, size := 0.25, isWallMarker := true, isTokenMarker := false,
         polar := { distSq := 0, rotY := 0, rotYDeg := 0 } }] := by
  refine ⟨rfl, rfl, rfl, ?_⟩
  norm_num [see, see_object_filter, motion_blurred, robot_moving,
    marker_map, qatan2, selfRobotObj, obs0, cfg0, HALF_FOV_WIDTH,
    MOTION_BLUR_SPEED_THRESHOLD, List.mergeSort_singleton]

/-- Claim C4 is false as stated: with identity orientation and wheel-point
world velocity (1, 2), the force computed by the source (friction on the
local forward velocity component, here 1) differs from the force the claim
describes (friction on the local lateral component, here 2). -/
theorem c4_counterexample_lateral_friction :
    apply_wheel_force cBody (width * 0.5) 1
      ≠ wheel_force_claim_lateral cBody (width * 0.5) 1 := by
  norm_num [apply_wheel_force, wheel_force_claim_lateral, get_local_vector,
    get_world_point, cBody, COAST, width]

/-- Claim C4 as amended: each wheel tick applies, at the world point of the
wheel, a force along the heading of magnitude command × 100 × 0.6 (0 when
coasting) minus the friction coefficient (50.2 driven, 5.2 coasting) times
the local FORWARD (x) velocity component of the wheel point; the left wheel
uses motors[0] at local y = −half_width and the right wheel motors[1] at
+half_width. -/
theorem c4_wheel_forces_forward_friction :
    (∀ (b : Body) (y_position power : ℚ),
      apply_wheel_force b y_position power
        = wheel_force_forward b y_position power) ∧
    (∀ (b : Body) (m0 m1 : ℚ),
      tick_wheel_forces b m0 m1 =
        [wheel_force_forward b (-(width * 0.5)) m0,
         wheel_force_forward b (width * 0.5) m1]) := by
  exact ⟨fun b y p => rfl, fun b m0 m1 => rfl⟩


end SimBot
